import Mathlib

/-!
Verification of the complaint-classification engine in
`src/utils/ai_classifier.py` (`ComplaintClassifier`).

Python strings are modelled as lists of Unicode code points (`PyStr`);
Python's substring operator `sub in s` is `strIn`; `str.lower`/`str.upper`
are code-point maps over the ASCII letter ranges.  The scikit-learn
pipeline is opaque third-party code, so the trained artifact is modelled
abstractly: a `Model` is a prediction function, and the training step is an
abstract function `TrainFn` whose `none` result stands for "fitting or
persisting raised an exception".  All control flow of the Python file
itself (fallback scanning, priority rules, the feedback loop and its
exception handlers) is embedded directly from the source.
-/

namespace CivicTrack

/-- Python strings as lists of Unicode code points. -/
abbrev PyStr := List Nat

/-- Code points of a Lean string literal, used to transcribe the Python literals. -/
def pyStr (s : String) : PyStr := s.toList.map Char.toNat

/-- Python `str.lower` on one code point (the inputs in this file are ASCII). -/
def pyLowerChar (c : Nat) : Nat := if 65 ≤ c ∧ c ≤ 90 then c + 32 else c

/-- Python `str.lower`. -/
def pyLower (s : PyStr) : PyStr := s.map pyLowerChar

/-- Python `str.upper` on one code point (the inputs in this file are ASCII). -/
def pyUpperChar (c : Nat) : Nat := if 97 ≤ c ∧ c ≤ 122 then c - 32 else c

/-- Python `str.upper`. -/
def pyUpper (s : PyStr) : PyStr := s.map pyUpperChar

/-- Leading-match test used to define the substring operator. -/
def pyStartsWith : PyStr → PyStr → Bool
  | [], _ => true
  | _ :: _, [] => false
  | c :: cs, d :: ds => c == d && pyStartsWith cs ds

/-- Python's substring operator: `strIn sub s` is `sub in s`. -/
def strIn : PyStr → PyStr → Bool
  | sub, [] => sub.isEmpty
  | sub, c :: rest => pyStartsWith sub (c :: rest) || strIn sub rest

/-- The f-string `f"{title} {description}"`. -/
def pyConcatSp (a b : PyStr) : PyStr := a ++ pyStr " " ++ b

/-- The dictionary returned by `predict_category` / `fallback_classification`. -/
structure PredictionResult where
  category : PyStr
  confidence : ℚ
  method : PyStr
deriving DecidableEq

/-- Python `round(x, 3)` on the model's probability.  (Python rounds float
ties to even; no claim exercises a tie, so half-up is used.) -/
def round3 (q : ℚ) : ℚ := (⌊q * 1000 + 1/2⌋ : ℤ) / 1000

/-- Modelled from the spec: the opaque trained artifact (`CategoryModel`,
spec section 3), whose only observable behaviour here is being invoked on a
text.  `run t = some (label, prob)` models `model.predict([t])[0]` paired
with `model.predict_proba([t]).max()`; `run t = none` models the invocation
raising, which `predict_category` catches. -/
structure Model where
  run : PyStr → Option (PyStr × ℚ)

/-- Modelled from the spec: `train(corpus) -> CategoryModel` (spec section
4.1), the TF-IDF plus multinomial-naive-Bayes fit followed by persisting the
artifact and metadata.  `none` models any exception in that cycle (fit or
I/O), which `train_model`'s handler catches. -/
def TrainFn := List PyStr → List PyStr → Option Model

/-- Modelled from the spec: what spec section 4.1 guarantees of a trained
multinomial class model — its top label is one of the labels of the corpus
it was fitted on, and its maximum class probability is a probability. -/
def TrainSpec (train : TrainFn) : Prop :=
  ∀ texts labels m, train texts labels = some m →
    ∀ t lbl p, m.run t = some (lbl, p) → lbl ∈ labels ∧ 0 ≤ p ∧ p ≤ 1

/-- The mutable state of a `ComplaintClassifier` instance: `self.model` and
the two lists of `self.training_data`. -/
structure Classifier where
  model : Option Model
  texts : List PyStr
  labels : List PyStr

/-- `self.categories`. -/
def categories : List PyStr :=
  [pyStr "potholes", pyStr "garbage", pyStr "streetlight", pyStr "water",
   pyStr "electricity", pyStr "drainage", pyStr "traffic", pyStr "other"]

/-- `self.training_data['texts']`, the seed corpus. -/
def initial_texts : List PyStr :=
  [pyStr "large pothole on main street causing traffic",
   pyStr "garbage accumulation near park smells bad",
   pyStr "street light not working on 5th avenue",
   pyStr "water leak from main pipe near school",
   pyStr "power outage in downtown area since morning",
   pyStr "drainage blocked causing water logging",
   pyStr "traffic signal malfunction at intersection",
   pyStr "noise pollution from construction site",
   pyStr "road repair needed after rain damage",
   pyStr "illegal dumping in residential area",
   pyStr "broken lamp post needs replacement",
   pyStr "low water pressure in apartment building",
   pyStr "electrical wire hanging dangerously",
   pyStr "sewage overflow near hospital",
   pyStr "road sign missing on highway",
   pyStr "public park maintenance required"]

/-- `self.training_data['labels']`. -/
def initial_labels : List PyStr :=
  [pyStr "potholes", pyStr "garbage", pyStr "streetlight", pyStr "water",
   pyStr "electricity", pyStr "drainage", pyStr "traffic", pyStr "other",
   pyStr "potholes", pyStr "garbage", pyStr "streetlight", pyStr "water",
   pyStr "electricity", pyStr "drainage", pyStr "traffic", pyStr "other"]

/-- `train_model`: fits a fresh pipeline on the current corpus and persists
it; its `except` clause catches every exception and sets `self.model = None`
without reporting anything to the caller.  The whole fit-persist cycle is
the abstract `train`. -/
def train_model (train : TrainFn) (st : Classifier) : Classifier :=
  { st with model := train st.texts st.labels }

/-- The classifier as built by `__init__` followed by `load_or_train_model`
when no persisted artifact exists on disk: seed corpus installed, then
`train_model`. -/
def initClassifier (train : TrainFn) : Classifier :=
  train_model train { model := none, texts := initial_texts, labels := initial_labels }

/-- The inner scans `for keyword in kws: if keyword in text: ...` with an
early exit; every use site returns the same value for every matching
keyword, so only whether some keyword matches is observable. -/
def containsAny : List PyStr → PyStr → Bool
  | [], _ => false
  | k :: ks, text => if strIn k text then true else containsAny ks text

/-- `keyword_mapping` of `fallback_classification`, in source order. -/
def keyword_mapping : List (PyStr × List PyStr) :=
  [(pyStr "potholes",
    [pyStr "pothole", pyStr "road damage", pyStr "road repair", pyStr "crack", pyStr "bump"]),
   (pyStr "garbage",
    [pyStr "garbage", pyStr "trash", pyStr "waste", pyStr "dump", pyStr "clean", pyStr "sanitation"]),
   (pyStr "streetlight",
    [pyStr "street light", pyStr "lamp post", pyStr "light", pyStr "dark", pyStr "illumination"]),
   (pyStr "water",
    [pyStr "water", pyStr "leak", pyStr "pipe", pyStr "pressure", pyStr "supply", pyStr "quality"]),
   (pyStr "electricity",
    [pyStr "power", pyStr "electric", pyStr "outage", pyStr "wire", pyStr "shock", pyStr "transformer"]),
   (pyStr "drainage",
    [pyStr "drain", pyStr "sewage", pyStr "water logging", pyStr "block", pyStr "overflow"]),
   (pyStr "traffic",
    [pyStr "traffic", pyStr "signal", pyStr "congestion", pyStr "parking", pyStr "road sign"])]

/-- The outer loop of `fallback_classification` over `keyword_mapping.items()`:
first category with a matching keyword returns `{category, 0.7, 'keyword_match'}`. -/
def classify_scan : List (PyStr × List PyStr) → PyStr → Option PredictionResult
  | [], _ => none
  | (cat, kws) :: rest, text =>
    if containsAny kws text then some ⟨cat, 7/10, pyStr "keyword_match"⟩
    else classify_scan rest text

/-- `fallback_classification` with the keyword table as a parameter (used to
state keyword-order invariance); falls through to `{'other', 0.5, 'default'}`. -/
def fallback_with (mapping : List (PyStr × List PyStr)) (title description : PyStr) :
    PredictionResult :=
  (classify_scan mapping (pyLower (pyConcatSp title description))).getD
    ⟨pyStr "other", 1/2, pyStr "default"⟩

/-- `fallback_classification(self, title, description)`. -/
def fallback_classification (title description : PyStr) : PredictionResult :=
  fallback_with keyword_mapping title description

/-- `predict_category(self, title, description)`: fallback when `self.model`
is falsy, model prediction otherwise, and fallback again when the model
invocation raises.  A successful model call returns method `'ai_model'`. -/
def predict_category (st : Classifier) (title description : PyStr) : PredictionResult :=
  match st.model with
  | none => fallback_classification title description
  | some m =>
    match m.run (pyConcatSp title description) with
    | some (lbl, p) => ⟨lbl, round3 p, pyStr "ai_model"⟩
    | none => fallback_classification title description

/-- `priority_scores`, defined at the top of `prioritize_complaint` but never
read afterwards. -/
def priority_scores : List (PyStr × Nat) :=
  [(pyStr "Critical", 0), (pyStr "High", 1), (pyStr "Medium", 2), (pyStr "Low", 3)]

/-- `urgent_keywords` of `prioritize_complaint`. -/
def urgent_keywords : List PyStr :=
  [pyStr "emergency", pyStr "urgent", pyStr "danger", pyStr "accident",
   pyStr "fire", pyStr "flood", pyStr "collapse"]

/-- `category_priority` of `prioritize_complaint`, read via `.get(category, 'Medium')`. -/
def category_priority : List (PyStr × PyStr) :=
  [(pyStr "electricity", pyStr "High"), (pyStr "water", pyStr "High"),
   (pyStr "drainage", pyStr "High"), (pyStr "traffic", pyStr "Medium"),
   (pyStr "potholes", pyStr "Medium"), (pyStr "streetlight", pyStr "Medium"),
   (pyStr "garbage", pyStr "Low"), (pyStr "other", pyStr "Low")]

/-- `high_priority_words` of `prioritize_complaint`. -/
def high_priority_words : List PyStr :=
  [pyStr "broken", pyStr "leak", pyStr "outage", pyStr "blocked",
   pyStr "hazard", pyStr "safety"]

/-- The escalation loop: `for word in words: if word in text and priority !=
'Critical': priority = 'High'; break`. -/
def escalate_scan : List PyStr → PyStr → PyStr → PyStr
  | [], _, priority => priority
  | w :: ws, text, priority =>
    if strIn w text ∧ priority ≠ pyStr "Critical" then pyStr "High"
    else escalate_scan ws text priority

/-- `prioritize_complaint(self, category, description, location_data=None)`.
The body reads neither `self` nor `location_data`. -/
def prioritize_complaint (self : Classifier) (category description : PyStr)
    (location_data : Option PyStr) : PyStr :=
  if containsAny urgent_keywords (pyLower description) then pyStr "Critical"
  else
    escalate_scan high_priority_words (pyLower description)
      ((List.lookup category category_priority).getD (pyStr "Medium"))

/-- `retrain_with_feedback(self, text, actual_category)`: appends the pair to
both corpus lists, then calls `train_model`.  `train_model` catches its own
exceptions (leaving `self.model = None`), so nothing in the `try` block can
raise and the function returns `True` unconditionally; the appended pair is
never rolled back. -/
def retrain_with_feedback (train : TrainFn) (st : Classifier) (text label : PyStr) :
    Classifier × Bool :=
  let st1 : Classifier :=
    { st with texts := st.texts ++ [text], labels := st.labels ++ [label] }
  (train_model train st1, true)

/-- Classifier states reachable from construction via feedback ingestion,
the only mutating operation. -/
inductive Reachable (train : TrainFn) : Classifier → Prop
  | init : Reachable train (initClassifier train)
  | step (st : Classifier) (text label : PyStr) :
      Reachable train st →
      Reachable train (retrain_with_feedback train st text label).1

/-- The prioritizer exactly as the spec words it (section 4.3): urgency
override, then the category base table, then escalation of the base to High
on any secondary keyword.  Stated beside `prioritize_complaint` for the
refinement theorem. -/
def prioritizeSpec (category description : PyStr) : PyStr :=
  if urgent_keywords.any (fun k => strIn k (pyLower description)) then pyStr "Critical"
  else if high_priority_words.any (fun k => strIn k (pyLower description)) then pyStr "High"
  else (List.lookup category category_priority).getD (pyStr "Medium")

/-- The fallback classifier as the spec words it: the first category in the
fixed order any of whose keywords substring-matches wins with confidence
0.7; otherwise `other` with confidence 0.5.  Stated beside
`fallback_classification` for the refinement theorem. -/
def fallbackSpec (title description : PyStr) : PredictionResult :=
  match keyword_mapping.find?
      (fun p => p.2.any (fun k => strIn k (pyLower (pyConcatSp title description)))) with
  | some p => ⟨p.1, 7/10, pyStr "keyword_match"⟩
  | none => ⟨pyStr "other", 1/2, pyStr "default"⟩

/-- A copy of `keyword_mapping` with one category's keyword list permuted,
used to witness order-invariance within a category. -/
def keyword_mapping_alt : List (PyStr × List PyStr) :=
  (pyStr "potholes",
    [pyStr "bump", pyStr "crack", pyStr "road repair", pyStr "road damage", pyStr "pothole"]) ::
  keyword_mapping.tail

/-- The training function that always fails (every fit raises); satisfies
`TrainSpec` vacuously. -/
def trainNone : TrainFn := fun _ _ => none

/-- A concrete training function satisfying `TrainSpec`: the fitted model
always predicts the most recently appended training label. -/
def badTrain : TrainFn := fun _ labels =>
  match labels.getLast? with
  | none => none
  | some lbl => some ⟨fun _ => some (lbl, 1/2)⟩

/-- A constant model used to build concrete classifier states. -/
def mConst : Model := ⟨fun _ => some (pyStr "potholes", 9/10)⟩

/-- A training function that succeeds on the 16-example seed corpus and
fails on any larger corpus: it exhibits a retrain failing after the initial
training succeeded. -/
def trainOnce : TrainFn := fun texts _ =>
  if texts.length ≤ 16 then some mConst else none

theorem containsAny_eq_any (l : List PyStr) (t : PyStr) :
    containsAny l t = l.any (fun k => strIn k t) := by
  induction l with
  | nil => rfl
  | cons k ks ih =>
    simp only [containsAny, List.any_cons]
    by_cases h : strIn k t
    · simp [h]
    · simp [h, ih]

theorem any_perm {l1 l2 : List PyStr} (h : List.Perm l1 l2) (p : PyStr → Bool) :
    l1.any p = l2.any p := by
  apply Bool.coe_iff_coe.mp
  simp only [List.any_eq_true]
  exact ⟨fun ⟨x, hx, hpx⟩ => ⟨x, h.mem_iff.mp hx, hpx⟩,
         fun ⟨x, hx, hpx⟩ => ⟨x, h.mem_iff.mpr hx, hpx⟩⟩

theorem escalate_scan_eq (ws : List PyStr) (t priority : PyStr) :
    escalate_scan ws t priority =
      if ws.any (fun k => strIn k t) ∧ priority ≠ pyStr "Critical"
      then pyStr "High" else priority := by
  induction ws with
  | nil => simp [escalate_scan]
  | cons w ws ih =>
    simp only [escalate_scan, List.any_cons, ih]
    by_cases h1 : strIn w t <;> by_cases h2 : priority = pyStr "Critical" <;>
      simp [h1, h2]

theorem lookup_snd_mem {l : List (PyStr × PyStr)} {k v : PyStr}
    (h : List.lookup k l = some v) : v ∈ l.map Prod.snd := by
  induction l with
  | nil => simp [List.lookup] at h
  | cons hd tl ih =>
    rw [List.lookup] at h
    split at h
    · simp_all
    · simpa using Or.inr (ih h)

theorem base_priority_ne_critical (c : PyStr) :
    (List.lookup c category_priority).getD (pyStr "Medium") ≠ pyStr "Critical" := by
  cases h : List.lookup c category_priority with
  | none => decide
  | some v =>
    have hv := lookup_snd_mem h
    fin_cases hv <;> decide

theorem classify_scan_some {m : List (PyStr × List PyStr)} {t : PyStr}
    {r : PredictionResult} (h : classify_scan m t = some r) :
    r.confidence = 7/10 ∧ r.method = pyStr "keyword_match" ∧
      r.category ∈ m.map Prod.fst := by
  induction m with
  | nil => simp [classify_scan] at h
  | cons hd tl ih =>
    obtain ⟨cat, kws⟩ := hd
    rw [classify_scan] at h
    split at h
    · cases h
      exact ⟨rfl, rfl, by simp⟩
    · obtain ⟨h1, h2, h3⟩ := ih h
      exact ⟨h1, h2, by simp [h3]⟩

theorem classify_scan_eq_find (m : List (PyStr × List PyStr)) (t : PyStr) :
    classify_scan m t =
      Option.map (fun p => (⟨p.1, 7/10, pyStr "keyword_match"⟩ : PredictionResult))
        (m.find? (fun p => p.2.any (fun k => strIn k t))) := by
  induction m with
  | nil => rfl
  | cons hd tl ih =>
    obtain ⟨cat, kws⟩ := hd
    rw [classify_scan, containsAny_eq_any]
    by_cases h : kws.any (fun k => strIn k t)
    · rw [if_pos h, List.find?_cons_of_pos _ (by simpa using h)]
      rfl
    · rw [if_neg h, List.find?_cons_of_neg _ (by simpa using h)]
      exact ih

theorem classify_scan_congr {m1 m2 : List (PyStr × List PyStr)} (t : PyStr)
    (h : List.Forall₂ (fun p q => p.1 = q.1 ∧ List.Perm p.2 q.2) m1 m2) :
    classify_scan m1 t = classify_scan m2 t := by
  induction h with
  | nil => rfl
  | cons hpq _ ih =>
    rename_i p q m1' m2' _
    obtain ⟨h1, h2⟩ := hpq
    obtain ⟨c1, k1⟩ := p
    obtain ⟨c2, k2⟩ := q
    simp only at h1 h2
    rw [classify_scan, classify_scan, containsAny_eq_any, containsAny_eq_any,
      any_perm h2, h1, ih]

theorem classify_scan_none {m : List (PyStr × List PyStr)} {t : PyStr}
    (h : ∀ p ∈ m, ∀ k ∈ p.2, strIn k t = false) :
    classify_scan m t = none := by
  induction m with
  | nil => rfl
  | cons hd tl ih =>
    obtain ⟨cat, kws⟩ := hd
    have hfalse : ¬ (containsAny kws t = true) := by
      rw [containsAny_eq_any, List.any_eq_true]
      rintro ⟨k, hk, hks⟩
      rw [h (cat, kws) (List.mem_cons_self _ _) k hk] at hks
      exact Bool.false_ne_true hks
    rw [classify_scan, if_neg hfalse]
    exact ih (fun p hp => h p (List.mem_cons_of_mem _ hp))

theorem model_eq_train {train : TrainFn} {st : Classifier} (h : Reachable train st) :
    st.model = train st.texts st.labels := by
  induction h with
  | init => rfl
  | step st text label hst ih => rfl

theorem round3_bounds {p : ℚ} (h0 : 0 ≤ p) (h1 : p ≤ 1) :
    0 ≤ round3 p ∧ round3 p ≤ 1 := by
  unfold round3
  constructor
  · apply div_nonneg _ (by norm_num)
    have h2 : (0:ℤ) ≤ ⌊p * 1000 + 1/2⌋ := Int.floor_nonneg.mpr (by linarith)
    exact_mod_cast h2
  · rw [div_le_one (by norm_num)]
    have h2 : ⌊p * 1000 + 1/2⌋ ≤ ⌊(2001:ℚ)/2⌋ := Int.floor_le_floor (by linarith)
    have h3 : ⌊(2001:ℚ)/2⌋ = 1000 := by norm_num [Int.floor_eq_iff]
    rw [h3] at h2
    exact_mod_cast h2

theorem fallback_bounds (title description : PyStr) :
    (0 ≤ (fallback_classification title description).confidence ∧
      (fallback_classification title description).confidence ≤ 1) ∧
    (fallback_classification title description).category ∈ categories ∧
    ((fallback_classification title description).method = pyStr "keyword_match" ∨
      (fallback_classification title description).method = pyStr "default") := by
  unfold fallback_classification fallback_with
  cases h : classify_scan keyword_mapping (pyLower (pyConcatSp title description)) with
  | none =>
    refine ⟨⟨?_, ?_⟩, by decide, Or.inr rfl⟩
    · show (0:ℚ) ≤ 1/2
      norm_num
    · show (1:ℚ)/2 ≤ 1
      norm_num
  | some r =>
    obtain ⟨h1, h2, h3⟩ := classify_scan_some h
    refine ⟨?_, ?_, Or.inl ?_⟩
    · rw [Option.getD_some, h1]; exact ⟨by norm_num, by norm_num⟩
    · rw [Option.getD_some]
      have hsub : ∀ c ∈ keyword_mapping.map Prod.fst, c ∈ categories := by decide
      exact hsub _ h3
    · rw [Option.getD_some, h2]

theorem badTrain_spec : TrainSpec badTrain := by
  intro texts labels m hm t lbl p hrun
  unfold badTrain at hm
  cases hl : labels.getLast? with
  | none => rw [hl] at hm; exact Option.noConfusion hm
  | some l0 =>
    rw [hl] at hm
    cases hm
    simp only [Option.some.injEq, Prod.mk.injEq] at hrun
    obtain ⟨h1, h2⟩ := hrun
    refine ⟨?_, ?_, ?_⟩
    · rw [← h1]; exact List.mem_of_mem_getLast? hl
    · rw [← h2]; norm_num
    · rw [← h2]; norm_num

theorem trainNone_spec : TrainSpec trainNone :=
  fun _ _ _ hm => Option.noConfusion hm

/-- Claim C2: `prioritize_complaint` follows the three-step algorithm —
urgent-keyword override to Critical, category base priority from the fixed
table with unknown categories defaulting to Medium, then escalation of the
base priority to High on the first matching secondary keyword. -/
theorem prioritize_three_step (self : Classifier) (category description : PyStr)
    (location_data : Option PyStr) :
    prioritize_complaint self category description location_data =
      prioritizeSpec category description := by
  unfold prioritize_complaint prioritizeSpec
  rw [containsAny_eq_any, escalate_scan_eq]
  by_cases h1 : urgent_keywords.any (fun k => strIn k (pyLower description)) = true
  · rw [if_pos h1, if_pos h1]
  · rw [if_neg h1, if_neg h1]
    by_cases h2 : high_priority_words.any (fun k => strIn k (pyLower description)) = true
    · rw [if_pos ⟨h2, base_priority_ne_critical category⟩, if_pos h2]
    · rw [if_neg (fun hc => h2 hc.1), if_neg h2]

/-- Claim C3: the fallback classifier scans categories in the fixed source
order and the first category with any matching keyword wins with confidence
0.7; the result is invariant under permuting any category's keyword list;
and with no matching keyword it is `other`/0.5/`default`. -/
theorem fallback_fixed_order (title description : PyStr) :
    fallback_classification title description = fallbackSpec title description ∧
    (∀ mapping2,
      List.Forall₂ (fun p q => p.1 = q.1 ∧ List.Perm p.2 q.2) keyword_mapping mapping2 →
      fallback_with mapping2 title description =
        fallback_classification title description) ∧
    ((∀ p ∈ keyword_mapping, ∀ k ∈ p.2,
        strIn k (pyLower (pyConcatSp title description)) = false) →
      fallback_classification title description =
        ⟨pyStr "other", 1/2, pyStr "default"⟩) := by
  refine ⟨?_, ?_, ?_⟩
  · unfold fallback_classification fallback_with fallbackSpec
    rw [classify_scan_eq_find]
    cases hf : keyword_mapping.find?
        (fun p => p.2.any (fun k => strIn k (pyLower (pyConcatSp title description)))) with
    | none => rfl
    | some p => rfl
  · intro mapping2 hperm
    unfold fallback_classification fallback_with
    rw [classify_scan_congr _ hperm]
  · intro hnone
    unfold fallback_classification fallback_with
    rw [classify_scan_none hnone]
    rfl

/-- Witness for C3 at a concrete no-match input and a concrete permutation
of the potholes keyword list. -/
theorem fallback_fixed_order_witness :
    List.Forall₂ (fun p q => p.1 = q.1 ∧ List.Perm p.2 q.2)
      keyword_mapping keyword_mapping_alt ∧
    (∀ p ∈ keyword_mapping, ∀ k ∈ p.2,
      strIn k (pyLower (pyConcatSp (pyStr "hello") (pyStr "xyz"))) = false) ∧
    fallback_with keyword_mapping_alt (pyStr "hello") (pyStr "xyz") =
      fallback_classification (pyStr "hello") (pyStr "xyz") ∧
    fallback_classification (pyStr "hello") (pyStr "xyz") =
      ⟨pyStr "other", 1/2, pyStr "default"⟩ := by
  have hperm : List.Forall₂ (fun p q => p.1 = q.1 ∧ List.Perm p.2 q.2)
      keyword_mapping keyword_mapping_alt := by
    unfold keyword_mapping keyword_mapping_alt
    refine List.Forall₂.cons ⟨rfl, by decide⟩ ?_
    refine List.Forall₂.cons ⟨rfl, by decide⟩ ?_
    refine List.Forall₂.cons ⟨rfl, by decide⟩ ?_
    refine List.Forall₂.cons ⟨rfl, by decide⟩ ?_
    refine List.Forall₂.cons ⟨rfl, by decide⟩ ?_
    refine List.Forall₂.cons ⟨rfl, by decide⟩ ?_
    exact List.Forall₂.cons ⟨rfl, by decide⟩ List.Forall₂.nil
  exact ⟨hperm, by decide, (fallback_fixed_order _ _).2.1 _ hperm,
    (fallback_fixed_order _ _).2.2 (by decide)⟩

/-- Claim C5 counterexample: feedback ingestion is not atomic.  With a
training function that succeeds on the seed corpus and fails on the grown
corpus, the failing `retrain_with_feedback` leaves the appended example in
the corpus and clears the previously trained in-memory model. -/
theorem feedback_atomic_claim_false :
    ¬ (∀ (train : TrainFn) (st : Classifier) (text label : PyStr),
        Reachable train st →
        train (st.texts ++ [text]) (st.labels ++ [label]) = none →
        (retrain_with_feedback train st text label).1.texts = st.texts ∧
        (retrain_with_feedback train st text label).1.labels = st.labels ∧
        (retrain_with_feedback train st text label).1.model = st.model) := by
  intro h
  have h2 := h trainOnce (initClassifier trainOnce) (pyStr "x") (pyStr "y")
    Reachable.init rfl
  have h3 : (none : Option Model) = some mConst := h2.2.2
  exact Option.noConfusion h3

/-- Claim C5 amended: on a failed retrain-plus-persist, the appended example
remains in both corpus lists (no rollback) and the in-memory model is set to
none (replaced, not preserved). -/
theorem feedback_failure_state (train : TrainFn) (st : Classifier) (text label : PyStr)
    (hfail : train (st.texts ++ [text]) (st.labels ++ [label]) = none) :
    (retrain_with_feedback train st text label).1.texts = st.texts ++ [text] ∧
    (retrain_with_feedback train st text label).1.labels = st.labels ++ [label] ∧
    (retrain_with_feedback train st text label).1.model = none := by
  refine ⟨rfl, rfl, ?_⟩
  simp only [retrain_with_feedback, train_model]
  exact hfail

/-- Witness for the amended C5 at the always-failing training function. -/
theorem feedback_failure_state_witness :
    trainNone ((⟨none, [], []⟩ : Classifier).texts ++ [pyStr "x"])
        ((⟨none, [], []⟩ : Classifier).labels ++ [pyStr "y"]) = none ∧
    ((retrain_with_feedback trainNone ⟨none, [], []⟩ (pyStr "x") (pyStr "y")).1.texts =
        (⟨none, [], []⟩ : Classifier).texts ++ [pyStr "x"] ∧
      (retrain_with_feedback trainNone ⟨none, [], []⟩ (pyStr "x") (pyStr "y")).1.labels =
        (⟨none, [], []⟩ : Classifier).labels ++ [pyStr "y"] ∧
      (retrain_with_feedback trainNone ⟨none, [], []⟩ (pyStr "x") (pyStr "y")).1.model = none) :=
  ⟨rfl, feedback_failure_state trainNone ⟨none, [], []⟩ (pyStr "x") (pyStr "y") rfl⟩

/-- Claim C6 counterexample: `retrain_with_feedback` does not report
training or persistence failures — it returns True even when the
retrain-plus-persist cycle failed, because `train_model` swallows every
exception. -/
theorem feedback_reports_failure_claim_false :
    ¬ (∀ (train : TrainFn) (st : Classifier) (text label : PyStr),
        ((retrain_with_feedback train st text label).2 = true ↔
          train (st.texts ++ [text]) (st.labels ++ [label]) ≠ none)) := by
  intro h
  exact (h trainNone ⟨none, [], []⟩ (pyStr "x") (pyStr "y")).mp rfl rfl

/-- Claim C6 amended: `retrain_with_feedback` returns True unconditionally;
`train_model` catches every exception of the retrain-plus-persist cycle, so
a failure there is never surfaced to the caller. -/
theorem retrain_always_true (train : TrainFn) (st : Classifier) (text label : PyStr) :
    (retrain_with_feedback train st text label).2 = true := rfl

/-- Claim C7: `len(texts) == len(labels)` holds initially and in every
reachable state, and feedback ingestion appends exactly one element to each
of the two sequences. -/
theorem corpus_lockstep (train : TrainFn) (st : Classifier) (hst : Reachable train st) :
    st.texts.length = st.labels.length ∧
    ∀ text label,
      (retrain_with_feedback train st text label).1.texts = st.texts ++ [text] ∧
      (retrain_with_feedback train st text label).1.labels = st.labels ++ [label] := by
  induction hst with
  | init => exact ⟨rfl, fun _ _ => ⟨rfl, rfl⟩⟩
  | step st text label hst ih =>
    refine ⟨?_, fun _ _ => ⟨rfl, rfl⟩⟩
    simp only [retrain_with_feedback, train_model, List.length_append, ih.1]
    rfl

/-- Witness for C7 at the freshly constructed classifier. -/
theorem corpus_lockstep_witness :
    (initClassifier trainNone).texts.length = (initClassifier trainNone).labels.length :=
  (corpus_lockstep trainNone (initClassifier trainNone) Reachable.init).1

/-- Claim C1 counterexample: the claim fails as stated.  Feedback labels
are appended unvalidated, so a reachable state exists whose model was
fitted on a label outside the 8-category set and predicts it; hence not
every reachable state keeps `predict_category` inside the set. -/
theorem predict_in_range_claim_false :
    ¬ (∀ (train : TrainFn), TrainSpec train → ∀ st : Classifier, Reachable train st →
        ∀ title description : PyStr,
          (predict_category st title description).category ∈ categories ∧
          0 ≤ (predict_category st title description).confidence ∧
          (predict_category st title description).confidence ≤ 1 ∧
          (st.model = none →
            predict_category st (pyStr "") (pyStr "") =
              ⟨pyStr "other", 1/2, pyStr "default"⟩)) := by
  intro h
  have hmem := (h badTrain badTrain_spec _
      (Reachable.step (initClassifier badTrain) (pyStr "spam text") (pyStr "spam")
        Reachable.init)
      (pyStr "") (pyStr "")).1
  exact absurd hmem (by decide)

/-- Claim C1 amended: in every reachable state the confidence lies in
[0,1]; the category is in the fixed 8-category set whenever classification
falls back, and in general lies in the 8-category set or among the current
training labels; with no model loaded, `predict_category("", "")` is
`other`/0.5/`default`. -/
theorem predict_in_range (train : TrainFn) (hspec : TrainSpec train)
    (st : Classifier) (hst : Reachable train st) (title description : PyStr) :
    (0 ≤ (predict_category st title description).confidence ∧
      (predict_category st title description).confidence ≤ 1) ∧
    ((predict_category st title description).category ∈ categories ∨
      (predict_category st title description).category ∈ st.labels) ∧
    (st.model = none →
      predict_category st (pyStr "") (pyStr "") =
        ⟨pyStr "other", 1/2, pyStr "default"⟩) := by
  have hmodel := model_eq_train hst
  have hdefault : st.model = none →
      predict_category st (pyStr "") (pyStr "") =
        ⟨pyStr "other", 1/2, pyStr "default"⟩ := by
    intro hm
    simp only [predict_category, hm]
    rfl
  have hmain : (0 ≤ (predict_category st title description).confidence ∧
      (predict_category st title description).confidence ≤ 1) ∧
      ((predict_category st title description).category ∈ categories ∨
        (predict_category st title description).category ∈ st.labels) := by
    cases hm : st.model with
    | none =>
      simp only [predict_category, hm]
      exact ⟨(fallback_bounds title description).1,
        Or.inl (fallback_bounds title description).2.1⟩
    | some m =>
      rw [hm] at hmodel
      cases hr : m.run (pyConcatSp title description) with
      | none =>
        simp only [predict_category, hm, hr]
        exact ⟨(fallback_bounds title description).1,
          Or.inl (fallback_bounds title description).2.1⟩
      | some pr =>
        obtain ⟨lbl, p⟩ := pr
        obtain ⟨hlbl, hp0, hp1⟩ := hspec st.texts st.labels m hmodel.symm _ _ _ hr
        simp only [predict_category, hm, hr]
        exact ⟨round3_bounds hp0 hp1, Or.inr hlbl⟩
  exact ⟨hmain.1, hmain.2, hdefault⟩

/-- Witness for the amended C1 at the model-less classifier and empty input. -/
theorem predict_in_range_witness :
    TrainSpec trainNone ∧
    ((0 ≤ (predict_category (initClassifier trainNone) (pyStr "") (pyStr "")).confidence ∧
        (predict_category (initClassifier trainNone) (pyStr "") (pyStr "")).confidence ≤ 1) ∧
      ((predict_category (initClassifier trainNone) (pyStr "") (pyStr "")).category ∈
          categories ∨
        (predict_category (initClassifier trainNone) (pyStr "") (pyStr "")).category ∈
          (initClassifier trainNone).labels) ∧
      ((initClassifier trainNone).model = none →
        predict_category (initClassifier trainNone) (pyStr "") (pyStr "") =
          ⟨pyStr "other", 1/2, pyStr "default"⟩)) :=
  ⟨trainNone_spec,
    predict_in_range trainNone trainNone_spec (initClassifier trainNone) Reachable.init
      (pyStr "") (pyStr "")⟩

/-- Claim C4 counterexample: the method strings of the code are not the
spec's enum — a keyword-fallback result carries method `keyword_match`,
which is not `keyword_fallback` and not in {model, keyword_fallback,
default}. -/
theorem method_enum_claim_false :
    (fallback_classification (pyStr "pothole on road")
        (pyStr "large crack causing damage")).method ≠ pyStr "keyword_fallback" ∧
    (fallback_classification (pyStr "pothole on road")
        (pyStr "large crack causing damage")).method ∉
      [pyStr "model", pyStr "keyword_fallback", pyStr "default"] := by
  decide

/-- Claim C4 amended: every `PredictionResult` method is drawn from
{ai_model, keyword_match, default}: a successful model prediction returns
`ai_model`, a keyword-fallback match returns `keyword_match`, and a
no-match fallback returns `default`. -/
theorem predict_method_values (st : Classifier) (title description : PyStr) :
    (predict_category st title description).method ∈
      [pyStr "ai_model", pyStr "keyword_match", pyStr "default"] ∧
    (∀ m lbl p, st.model = some m →
      m.run (pyConcatSp title description) = some (lbl, p) →
      predict_category st title description = ⟨lbl, round3 p, pyStr "ai_model"⟩) ∧
    ((st.model = none ∨
        (∃ m, st.model = some m ∧ m.run (pyConcatSp title description) = none)) →
      predict_category st title description = fallback_classification title description) ∧
    ((fallback_classification title description).method = pyStr "keyword_match" ∨
      (fallback_classification title description).method = pyStr "default") := by
  refine ⟨?_, ?_, ?_, (fallback_bounds title description).2.2⟩
  · cases hm : st.model with
    | none =>
      simp only [predict_category, hm]
      rcases (fallback_bounds title description).2.2 with h | h <;> rw [h] <;> decide
    | some m =>
      cases hr : m.run (pyConcatSp title description) with
      | none =>
        simp only [predict_category, hm, hr]
        rcases (fallback_bounds title description).2.2 with h | h <;> rw [h] <;> decide
      | some pr =>
        obtain ⟨lbl, p⟩ := pr
        simp only [predict_category, hm, hr]
        decide
  · intro m lbl p hm hr
    simp only [predict_category, hm, hr]
  · rintro (hm | ⟨m, hm, hr⟩)
    · simp only [predict_category, hm]
    · simp only [predict_category, hm, hr]

/-- Witness for the amended C4 at a classifier whose model predicts
successfully. -/
theorem predict_method_values_witness :
    (⟨some mConst, [], []⟩ : Classifier).model = some mConst ∧
    mConst.run (pyConcatSp (pyStr "a") (pyStr "b")) = some (pyStr "potholes", 9/10) ∧
    predict_category ⟨some mConst, [], []⟩ (pyStr "a") (pyStr "b") =
      ⟨pyStr "potholes", round3 (9/10), pyStr "ai_model"⟩ :=
  ⟨rfl, rfl,
    (predict_method_values ⟨some mConst, [], []⟩ (pyStr "a") (pyStr "b")).2.1
      mConst (pyStr "potholes") (9/10) rfl rfl⟩

/-- Claim C9: `retrain_with_feedback` validates nothing — any label string
is appended verbatim and the call reports success; consequently a reachable
state exists (under a training function satisfying the multinomial-model
contract) in which a model-based prediction returns a category outside the
8-category set. -/
theorem feedback_no_validation :
    (∀ (train : TrainFn) (st : Classifier) (text label : PyStr),
      (retrain_with_feedback train st text label).1.texts = st.texts ++ [text] ∧
      (retrain_with_feedback train st text label).1.labels = st.labels ++ [label] ∧
      (retrain_with_feedback train st text label).2 = true) ∧
    (∃ train : TrainFn, TrainSpec train ∧ ∃ st : Classifier, Reachable train st ∧
      ∃ title description : PyStr,
        (predict_category st title description).category ∉ categories) := by
  constructor
  · exact fun train st text label => ⟨rfl, rfl, rfl⟩
  · exact ⟨badTrain, badTrain_spec,
      (retrain_with_feedback badTrain (initClassifier badTrain) (pyStr "spam text")
        (pyStr "spam")).1,
      Reachable.step _ _ _ Reachable.init, pyStr "", pyStr "", by decide⟩

/-- Claim C10: `fallback_classification` is case-insensitive on ASCII
inputs — upper-casing both the title and the description yields the same
`PredictionResult`. -/
theorem fallback_case_insensitive (title description : PyStr)
    (ht : ∀ c ∈ title, c < 128) (hd : ∀ c ∈ description, c < 128) :
    fallback_classification (pyUpper title) (pyUpper description) =
      fallback_classification title description := by
  have hchar : ∀ c : Nat, pyLowerChar (pyUpperChar c) = pyLowerChar c := by
    intro c
    simp only [pyLowerChar, pyUpperChar]
    split_ifs <;> omega
  have hfun : pyLowerChar ∘ pyUpperChar = pyLowerChar := funext hchar
  have key : pyLower (pyConcatSp (pyUpper title) (pyUpper description)) =
      pyLower (pyConcatSp title description) := by
    simp only [pyConcatSp, pyLower, pyUpper, List.map_append, List.map_map, hfun]
  unfold fallback_classification fallback_with
  rw [key]

/-- Witness for C10 at a concrete mixed-case ASCII input. -/
theorem fallback_case_insensitive_witness :
    (∀ c ∈ pyStr "Pothole On Road", c < 128) ∧
    (∀ c ∈ pyStr "Big Crack", c < 128) ∧
    fallback_classification (pyUpper (pyStr "Pothole On Road"))
        (pyUpper (pyStr "Big Crack")) =
      fallback_classification (pyStr "Pothole On Road") (pyStr "Big Crack") :=
  ⟨by decide, by decide,
    fallback_case_insensitive (pyStr "Pothole On Road") (pyStr "Big Crack")
      (by decide) (by decide)⟩

/-- Claim C8: `prioritize_complaint` is pure and deterministic — its result
does not depend on the classifier state (in particular not on the model) or
on the `location_data` argument. -/
theorem prioritize_pure (st1 st2 : Classifier) (category description : PyStr)
    (loc1 loc2 : Option PyStr) :
    prioritize_complaint st1 category description loc1 =
      prioritize_complaint st2 category description loc2 := rfl

end CivicTrack
